import Mathlib

/-!
# Verification of the NS-3 LoRaWAN analysis scripts

Shallow embeddings of the metric computations of the repository's three
analysis scripts, with theorems about their arithmetic and control flow.

 * namespace `Multi`  — `analyze_simulation.py` (multi-device error analysis):
   the snapshot records built by `parse_transmission_stats` and the
   `calculate_error_rates` pipeline (per-device, network, gateway and
   temporal sections).
 * namespace `TempAnalyzer` — `temp_analyzer.py` (FEC feasibility):
   `analyze_fec_packet_flow`'s basic statistics, generation-size analysis
   and optimal-generation-size selection.
 * namespace `Scratch` — `scratch/analyze_simulation.py` (ground truth):
   the radio-source selection loop of `establish_ground_truth`, the band
   checks and confidence aggregation of `GroundTruthData.validate`, and
   `main`'s validation gate.

Modelling conventions: Python float arithmetic is modelled by exact
rational arithmetic over `ℚ`; values parsed with Python `int(...)` are
`ℤ` (or `ℕ` where the source can only produce a count); a pandas
DataFrame built from a list of records is a Lean list of row structures,
and is empty exactly when it has no columns, so a column access on an
empty frame raises `KeyError` — modelled with `Except`.
-/

namespace Multi

/-- Python `int(q)` on a number: truncation toward zero. -/
def pyint (q : ℚ) : ℤ := if 0 ≤ q then ⌊q⌋ else ⌈q⌉

/-- One per-device record appended by `parse_transmission_stats`
(`analyze_simulation.py` lines 48-56). `successful_packets` and
`failed_attempts` are derived from `total_attempts` and `efficiency`
exactly as in the source. -/
structure Snapshot where
  time : ℚ
  nb_trans : ℤ
  efficiency : ℚ
  total_attempts : ℤ
  adjustments : ℤ
  successful_packets : ℤ
  failed_attempts : ℤ
  deriving Repr, DecidableEq

/-- Building a snapshot from the fields parsed out of one `Device,...` line
of `adr_transmission_stats.txt`:
`successful_packets = int(total_attempts / efficiency) if efficiency > 0 else 0`,
`failed_attempts = total_attempts - int(total_attempts / efficiency) if efficiency > 0 else total_attempts`. -/
def mkSnapshot (time : ℚ) (nb_trans : ℤ) (efficiency : ℚ)
    (total_attempts : ℤ) (adjustments : ℤ) : Snapshot :=
  { time := time
    nb_trans := nb_trans
    efficiency := efficiency
    total_attempts := total_attempts
    adjustments := adjustments
    successful_packets :=
      if 0 < efficiency then pyint ((total_attempts : ℚ) / efficiency) else 0
    failed_attempts :=
      if 0 < efficiency then total_attempts - pyint ((total_attempts : ℚ) / efficiency)
      else total_attempts }

/-- A row of `globalPerformance.txt` as parsed by `parse_global_performance`
(all three fields parsed with `float`). -/
structure GlobalRow where
  time : ℚ
  packets_sent : ℚ
  packets_received : ℚ
  deriving Repr, DecidableEq

/-- A row of `phyPerformance.txt` as parsed by `parse_phy_performance`
(`time` parsed with `float`, the counters with `int`). -/
structure PhyRow where
  time : ℚ
  gateway_id : ℤ
  packets_sent : ℤ
  packets_received : ℤ
  packets_interfered : ℤ
  packets_no_more_receivers : ℤ
  packets_under_sensitivity : ℤ
  packets_lost : ℤ
  deriving Repr, DecidableEq

/-- The per-device record of `calculate_error_rates` (lines 83-94). -/
structure DeviceErrorStats where
  total_attempts : ℤ
  successful_packets : ℤ
  failed_attempts : ℤ
  packet_error_rate : ℚ
  packet_delivery_rate : ℚ
  transmission_efficiency : ℚ
  transmission_overhead : ℚ
  avg_retransmissions : ℚ
  nb_trans_current : ℤ
  adr_adjustments : ℤ
  deriving Repr, DecidableEq

/-- Per-device error metrics from the device's latest snapshot
(`calculate_error_rates` lines 73-94). -/
def perDeviceStats (latest : Snapshot) : DeviceErrorStats :=
  let packet_error_rate : ℚ :=
    if 0 < latest.total_attempts then
      (latest.failed_attempts : ℚ) / (latest.total_attempts : ℚ) * 100
    else 0
  { total_attempts := latest.total_attempts
    successful_packets := latest.successful_packets
    failed_attempts := latest.failed_attempts
    packet_error_rate := packet_error_rate
    packet_delivery_rate := 100 - packet_error_rate
    transmission_efficiency := latest.efficiency
    transmission_overhead :=
      if 1 ≤ latest.efficiency then (latest.efficiency - 1) * 100 else 0
    avg_retransmissions := latest.efficiency - 1
    nb_trans_current := latest.nb_trans
    adr_adjustments := latest.adjustments }

/-- `network_pdr = (total_received / total_sent * 100) if total_sent > 0 else 0`
(`calculate_error_rates` line 101; the same formula appears in
`analyze_results` lines 560-562). -/
def networkPdr (sent received : ℚ) : ℚ :=
  if 0 < sent then received / sent * 100 else 0

/-- `network_per = 100 - network_pdr` (`calculate_error_rates` line 102). -/
def networkPer (sent received : ℚ) : ℚ := 100 - networkPdr sent received

/-- The `network_summary` record (`calculate_error_rates` lines 104-111). -/
structure NetworkSummary where
  total_packets_sent : ℤ
  total_packets_received : ℤ
  packets_lost : ℤ
  network_pdr : ℚ
  network_per : ℚ
  overall_efficiency : ℚ
  deriving Repr, DecidableEq

/-- Network-level summary from the last row of the global-performance
frame (`calculate_error_rates` lines 97-111). -/
def networkSummary (sent received : ℚ) : NetworkSummary :=
  { total_packets_sent := pyint sent
    total_packets_received := pyint received
    packets_lost := pyint (sent - received)
    network_pdr := networkPdr sent received
    network_per := networkPer sent received
    overall_efficiency := if 0 < sent then received / sent else 0 }

/-- One gateway's record in `gateway_analysis`
(`calculate_error_rates` lines 130-139). -/
structure GatewayStats where
  packets_received : ℤ
  packets_interfered : ℤ
  packets_under_sensitivity : ℤ
  packets_no_receivers : ℤ
  total_processed : ℤ
  success_rate : ℚ
  interference_rate : ℚ
  sensitivity_error_rate : ℚ
  deriving Repr, DecidableEq

/-- Gateway error decomposition from the gateway's latest cumulative
counters (`calculate_error_rates` lines 120-139):
`total_errors = interfered + under_sensitivity + no_receivers`,
`total_processed = received + total_errors`, and each rate is
`count / total_processed * 100` when `total_processed > 0`, else `0`. -/
def gatewayStats (received interfered under_sensitivity no_receivers : ℤ) :
    GatewayStats :=
  let total_errors := interfered + under_sensitivity + no_receivers
  let total_processed := received + total_errors
  { packets_received := received
    packets_interfered := interfered
    packets_under_sensitivity := under_sensitivity
    packets_no_receivers := no_receivers
    total_processed := total_processed
    success_rate :=
      if 0 < total_processed then (received : ℚ) / (total_processed : ℚ) * 100 else 0
    interference_rate :=
      if 0 < total_processed then (interfered : ℚ) / (total_processed : ℚ) * 100 else 0
    sensitivity_error_rate :=
      if 0 < total_processed then
        (under_sensitivity : ℚ) / (total_processed : ℚ) * 100
      else 0 }

/-- `pandas.unique`: the distinct values of a column in order of first
appearance. -/
def uniq {α : Type} [DecidableEq α] (l : List α) : List α :=
  l.foldl (fun acc a => if a ∈ acc then acc else acc ++ [a]) []

/-- Per-gateway analysis: for each distinct `gateway_id` (in order of first
appearance), the stats derived from that gateway's last row
(`calculate_error_rates` lines 115-139; the inner non-empty check always
holds because the id was drawn from the frame). -/
def gatewayAnalysis (phy : List PhyRow) : List (ℤ × GatewayStats) :=
  (uniq (phy.map (·.gateway_id))).filterMap fun gw =>
    ((phy.filter fun r => r.gateway_id = gw).getLast?).map fun latest =>
      (gw, gatewayStats latest.packets_received latest.packets_interfered
        latest.packets_under_sensitivity latest.packets_no_more_receivers)

/-- One entry of `temporal_analysis` (`calculate_error_rates` lines 159-165). -/
structure TemporalEntry where
  time : ℚ
  cumulative_per : ℚ
  period_per : ℚ
  period_sent : ℚ
  period_received : ℚ
  deriving Repr, DecidableEq

/-- The temporal (period-over-period) error analysis
(`calculate_error_rates` lines 144-165): for each distinct time, the first
row at that time gives the cumulative pair, the last earlier row gives the
previous pair (zero when there is none), and the period error rate is
computed from their difference. -/
def temporalAnalysis (g : List GlobalRow) : List TemporalEntry :=
  (uniq (g.map (·.time))).filterMap fun tp =>
    ((g.filter fun r => r.time = tp).head?).map fun first =>
      let sent := first.packets_sent
      let received := first.packets_received
      let prev := g.filter fun r => r.time < tp
      let prev_sent := ((prev.getLast?).map (·.packets_sent)).getD 0
      let prev_received := ((prev.getLast?).map (·.packets_received)).getD 0
      let period_sent := sent - prev_sent
      let period_received := received - prev_received
      { time := tp
        cumulative_per :=
          if 0 < sent then (sent - received) / sent * 100 else 0
        period_per :=
          if 0 < period_sent then
            (period_sent - period_received) / period_sent * 100
          else 0
        period_sent := period_sent
        period_received := period_received }

/-- The record returned by `calculate_error_rates`:
`network_summary` is `none` when it was left as the initial empty dict,
`gateway_analysis` is `none` when the key was never added. -/
structure ErrorAnalysis where
  per_device : List (ℤ × DeviceErrorStats)
  network_summary : Option NetworkSummary
  gateway_analysis : Option (List (ℤ × GatewayStats))
  temporal_analysis : List TemporalEntry
  deriving Repr, DecidableEq

/-- `calculate_error_rates(transmission_stats, global_df, phy_df)`
(`analyze_simulation.py` lines 60-167).  The per-device loop skips devices
with an empty snapshot list; the network and gateway sections are guarded
by `if not df.empty`; the temporal loop (line 144) reads
`global_df['time']` without such a guard, and an empty frame (as returned
by `parse_global_performance` for a missing or empty file) has no columns,
so that access raises `KeyError: 'time'`. -/
def calculate_error_rates (transmission_stats : List (ℤ × List Snapshot))
    (global_df : List GlobalRow) (phy_df : List PhyRow) :
    Except String ErrorAnalysis :=
  let per_device := transmission_stats.filterMap fun p =>
    (p.2.getLast?).map fun latest => (p.1, perDeviceStats latest)
  let network := (global_df.getLast?).map fun last =>
    networkSummary last.packets_sent last.packets_received
  let gws := if phy_df.isEmpty then none else some (gatewayAnalysis phy_df)
  if global_df.isEmpty then Except.error "KeyError: time"
  else Except.ok
    { per_device := per_device
      network_summary := network
      gateway_analysis := gws
      temporal_analysis := temporalAnalysis global_df }

end Multi

namespace TempAnalyzer

/-- Configuration constants of `temp_analyzer.py` (lines 29-32). -/
def PAPER_TARGET_DER : ℚ := 1

/-- `EXPECTED_GENERATION_SIZES = [8, 16, 32, 64, 128]` (line 30). -/
def EXPECTED_GENERATION_SIZES : List ℕ := [8, 16, 32, 64, 128]

/-- `PACKET_INTERVAL = 144` seconds (line 32). -/
def PACKET_INTERVAL : ℕ := 144

/-- A row of `rssi_snr_measurements.csv` as `analyze_fec_packet_flow`
reads it: only `Time`, `DeviceAddr` and `GatewayID` are consulted. -/
structure RadioRow where
  Time : ℚ
  DeviceAddr : ℤ
  GatewayID : ℤ
  deriving Repr, DecidableEq

/-- `pandas.unique` again: distinct values in order of first appearance. -/
def uniq {α : Type} [DecidableEq α] (l : List α) : List α :=
  l.foldl (fun acc a => if a ∈ acc then acc else acc ++ [a]) []

/-- `len(radio_data)` (line 116). -/
def total_measurements (rows : List RadioRow) : ℕ := rows.length

/-- `radio_data['GatewayID'].nunique()` (line 118). -/
def unique_gateways (rows : List RadioRow) : ℕ :=
  (uniq (rows.map (·.GatewayID))).length

/-- `Series.max` of a column; the frame is non-empty wherever the script
uses it (a `None` frame returns before this point). -/
def colMax (l : List ℚ) : ℚ :=
  match l with
  | [] => 0
  | a :: rest => rest.foldl max a

/-- `Series.min` of a column. -/
def colMin (l : List ℚ) : ℚ :=
  match l with
  | [] => 0
  | a :: rest => rest.foldl min a

/-- `radio_data['Time'].max() - radio_data['Time'].min()` — the observed
time span in seconds (line 119 divides it by 3600 for hours). -/
def time_span (rows : List RadioRow) : ℚ :=
  colMax (rows.map (·.Time)) - colMin (rows.map (·.Time))

/-- `estimated_unique_packets = total_measurements // unique_gateways if
unique_gateways > 0 else total_measurements` (line 122). -/
def estimated_unique_packets (rows : List RadioRow) : ℕ :=
  if 0 < unique_gateways rows then
    total_measurements rows / unique_gateways rows
  else total_measurements rows

/-- `possible_generations = estimated_unique_packets // gen_size`
(`analyze_fec_packet_flow` line 157). -/
def possible_complete_generations (rows : List RadioRow) (gen_size : ℕ) : ℕ :=
  estimated_unique_packets rows / gen_size

/-- The optimal generation size (`analyze_fec_packet_flow` lines 172-184):
the candidate sizes whose `possible_complete_generations` is positive are
collected and, when any exist, their maximum is reported; otherwise the
result is explicitly `None`. -/
def optimal_generation_size (rows : List RadioRow) : Option ℕ :=
  let optimal_sizes := EXPECTED_GENERATION_SIZES.filter fun g =>
    0 < possible_complete_generations rows g
  if optimal_sizes.isEmpty then none else some (optimal_sizes.foldl max 0)

/-- A concrete radio frame with four measurements from one gateway spread
over a 3600-second span: 4 estimated packets, far fewer than one packet
per 144-second interval. -/
def rowsSparse : List RadioRow :=
  [⟨0, 1, 0⟩, ⟨1200, 1, 0⟩, ⟨2400, 1, 0⟩, ⟨3600, 1, 0⟩]

/-- A concrete radio frame with 25 measurements from one gateway over a
3600-second span — exactly one estimated packet per 144-second interval
(`⌊3600 / 144⌋ = 25`). -/
def rowsRegular : List RadioRow :=
  [⟨0, 1, 0⟩, ⟨150, 1, 0⟩, ⟨300, 1, 0⟩, ⟨450, 1, 0⟩, ⟨600, 1, 0⟩,
   ⟨750, 1, 0⟩, ⟨900, 1, 0⟩, ⟨1050, 1, 0⟩, ⟨1200, 1, 0⟩, ⟨1350, 1, 0⟩,
   ⟨1500, 1, 0⟩, ⟨1650, 1, 0⟩, ⟨1800, 1, 0⟩, ⟨1950, 1, 0⟩, ⟨2100, 1, 0⟩,
   ⟨2250, 1, 0⟩, ⟨2400, 1, 0⟩, ⟨2550, 1, 0⟩, ⟨2700, 1, 0⟩, ⟨2850, 1, 0⟩,
   ⟨3000, 1, 0⟩, ⟨3150, 1, 0⟩, ⟨3300, 1, 0⟩, ⟨3450, 1, 0⟩, ⟨3600, 1, 0⟩]

end TempAnalyzer

namespace Scratch

/-- Expected simulation parameters of `scratch/analyze_simulation.py`
(lines 48-53). -/
def EXPECTED_PACKET_INTERVAL : ℕ := 144

/-- `EXPECTED_SIMULATION_DAYS = 7` (line 49). -/
def EXPECTED_SIMULATION_DAYS : ℕ := 7

/-- `EXPECTED_GATEWAYS = 8` (line 50). -/
def EXPECTED_GATEWAYS : ℕ := 8

/-- `EXPECTED_FADING_STD = 8.0` dB (line 51). -/
def EXPECTED_FADING_STD : ℚ := 8

/-- `EXPECTED_TOTAL_PACKETS = int(7 * 24 * 3600 / 144)` (line 57); the
division is exact, so truncation agrees with natural division: 4200. -/
def EXPECTED_TOTAL_PACKETS : ℕ :=
  EXPECTED_SIMULATION_DAYS * 24 * 3600 / EXPECTED_PACKET_INTERVAL

/-- `RADIO_FILES` — the fixed priority list of candidate radio sources
(line 60). -/
def RADIO_FILES : List String :=
  ["rssi_snr_measurements.csv", "radio_measurements.csv",
   "radio_measurement_summary.csv"]

/-- The aggregate statistics of the selected radio DataFrame that
`GroundTruthData.validate` reads (lines 88-205): the row count, and for
each optional column the value the corresponding check consumes (`none`
when the column is absent, in which case the check is skipped and its
band stays "Unknown").  `timeMinMax` is the (min, max) of `Time`,
`gatewayCount` the `nunique` of `GatewayID`, `fadingStd` the sample
standard deviation of `Fading_dB`, and `sfPowerRange` the (max - min)
ranges of `SpreadingFactor` and `TxPower_dBm`. -/
structure RadioStats where
  n : ℕ
  timeMinMax : Option (ℚ × ℚ)
  gatewayCount : Option ℕ
  fadingStd : Option ℚ
  sfPowerRange : Option (ℚ × ℚ)
  deriving Repr, DecidableEq

/-- The `SimulationQuality` container (lines 64-74), warning messages
abbreviated to their fixed prefixes. -/
structure SimulationQuality where
  data_completeness : String := "Unknown"
  duration_accuracy : String := "Unknown"
  channel_model_accuracy : String := "Unknown"
  gateway_diversity : String := "Unknown"
  adropt_functioning : String := "Unknown"
  overall_confidence : String := "Unknown"
  warnings : List String := []
  debug_info : List String := []
  deriving Repr, DecidableEq

/-- The data-completeness band (lines 97-113): with
`expected_full = EXPECTED_TOTAL_PACKETS * EXPECTED_GATEWAYS * 0.9`
(inlined below), the thresholds are
`expected_min = max(100, expected_full * 0.01)`, `expected_full * 0.1`
and `expected_full * 0.5`. -/
def dataCompletenessBand (n : ℕ) : String :=
  if (n : ℚ) <
      max 100 ((EXPECTED_TOTAL_PACKETS : ℚ) * (EXPECTED_GATEWAYS : ℚ) * (9 / 10) * (1 / 100))
    then "Very Limited"
  else if (n : ℚ) <
      (EXPECTED_TOTAL_PACKETS : ℚ) * (EXPECTED_GATEWAYS : ℚ) * (9 / 10) * (1 / 10)
    then "Limited"
  else if (EXPECTED_TOTAL_PACKETS : ℚ) * (EXPECTED_GATEWAYS : ℚ) * (9 / 10) * (1 / 2) < (n : ℚ)
    then "Excellent"
  else "Adequate"

/-- The duration-accuracy band (lines 116-128): "Accurate" when the ratio
of observed span to expected duration lies within `[0.8, 1.2]`. -/
def durationBand (duration_ratio : ℚ) : String :=
  if 4 / 5 ≤ duration_ratio ∧ duration_ratio ≤ 6 / 5 then "Accurate"
  else "Inaccurate"

/-- The gateway-diversity band (lines 131-141). -/
def gatewayDiversityBand (unique_gateways : ℕ) : String :=
  if unique_gateways = EXPECTED_GATEWAYS then "Complete"
  else if (EXPECTED_GATEWAYS : ℚ) * (3 / 4) ≤ (unique_gateways : ℚ) then "Good"
  else "Poor"

/-- The channel-model band (lines 144-156): relative error of the fading
standard deviation against `EXPECTED_FADING_STD`. -/
def channelModelBand (fading_std : ℚ) : String :=
  let std_error := |fading_std - EXPECTED_FADING_STD| / EXPECTED_FADING_STD
  if std_error < 1 / 10 then "Excellent"
  else if std_error < 1 / 4 then "Good"
  else "Poor"

/-- The ADRopt-functioning band (lines 159-171) from the spreading-factor
and transmit-power ranges. -/
def adroptBand (sf_range power_range : ℚ) : String :=
  if 3 ≤ sf_range ∧ 5 ≤ power_range then "Active"
  else if 1 ≤ sf_range ∨ 2 ≤ power_range then "Limited"
  else "Inactive"

/-- The five `quality_scores` booleans (lines 187-193), counted. -/
def qualityScore (q : SimulationQuality) : ℕ :=
  (if q.data_completeness = "Adequate" ∨ q.data_completeness = "Excellent"
    then 1 else 0) +
  (if q.duration_accuracy = "Accurate" then 1 else 0) +
  (if q.gateway_diversity = "Good" ∨ q.gateway_diversity = "Complete"
    then 1 else 0) +
  (if q.channel_model_accuracy = "Good" ∨ q.channel_model_accuracy = "Excellent"
    then 1 else 0) +
  (if q.adropt_functioning = "Limited" ∨ q.adropt_functioning = "Active"
    then 1 else 0)

/-- `confidence_score = sum(quality_scores) / len(quality_scores)` mapped
to a confidence band (lines 195-202). -/
def overallFromScore (score : ℕ) : String :=
  if 4 / 5 ≤ (score : ℚ) / 5 then "High"
  else if 3 / 5 ≤ (score : ℚ) / 5 then "Medium"
  else "Low"

/-- What a call to `GroundTruthData.validate` leaves behind: the boolean
it returns, the quality record, `self.simulation_duration`, and the
`self.validated` flag after the call (initially `False`; the method sets
it to `True` only on the path that reaches line 204). -/
structure ValidateResult where
  ret : Bool
  quality : SimulationQuality
  simulation_duration : ℚ
  validated : Bool
  deriving Repr, DecidableEq

/-- The five band checks of `GroundTruthData.validate` (lines 96-171),
run in source order on a non-empty frame's statistics; each sets its band
field and possibly appends a warning, and a check whose column is absent
leaves its band "Unknown". -/
def bandsQuality (s : RadioStats) : SimulationQuality :=
  let completeness := dataCompletenessBand s.n
  let q1 : SimulationQuality :=
    { data_completeness := completeness
      warnings :=
        if completeness = "Very Limited" then ["Very limited data"]
        else if completeness = "Limited" then ["Limited data"]
        else [] }
  let expected_duration : ℚ := (EXPECTED_SIMULATION_DAYS : ℚ) * 24 * 3600
  let q2 : SimulationQuality :=
    match s.timeMinMax with
    | none => q1
    | some (tmin, tmax) =>
        let band := durationBand ((tmax - tmin) / expected_duration)
        { q1 with
          duration_accuracy := band
          warnings :=
            q1.warnings ++ if band = "Inaccurate" then ["Duration"] else [] }
  let q3 : SimulationQuality :=
    match s.gatewayCount with
    | none => q2
    | some u =>
        let band := gatewayDiversityBand u
        { q2 with
          gateway_diversity := band
          warnings :=
            q2.warnings ++ if band = "Complete" then [] else ["Gateways"] }
  let q4 : SimulationQuality :=
    match s.fadingStd with
    | none => q3
    | some std =>
        let band := channelModelBand std
        { q3 with
          channel_model_accuracy := band
          warnings :=
            q3.warnings ++ if band = "Poor" then ["Fading model off"] else [] }
  match s.sfPowerRange with
  | none => q4
  | some (sf, pw) =>
      let band := adroptBand sf pw
      { q4 with
        adropt_functioning := band
        warnings :=
          q4.warnings ++
            if band = "Active" then []
            else if band = "Limited" then ["Limited ADRopt activity"]
            else ["No ADRopt optimization detected"] }

/-- `self.simulation_duration` in days, set during the duration check
(line 121) when the `Time` column is present. -/
def simDuration (s : RadioStats) : ℚ :=
  match s.timeMinMax with
  | none => 0
  | some (tmin, tmax) => (tmax - tmin) / (24 * 3600)

/-- `GroundTruthData.validate` (lines 88-205) over the statistics of the
radio frame (`none` = `self.radio_data is None`; `n = 0` = empty frame).
The five checks of `bandsQuality` run first; then the overall confidence:
fewer than 50 rows forces "Very Low" and returns `True`; fewer than 500
forces "Low" and returns `True` — on both of these early-return paths
`self.validated` is never assigned and stays `False`; otherwise the
confidence comes from the five-band score and `self.validated` is set to
`True`. -/
def validate (radio : Option RadioStats) : ValidateResult :=
  match radio with
  | none =>
      { ret := false
        quality := { warnings := ["No radio measurement data available"] }
        simulation_duration := 0
        validated := false }
  | some s =>
      if s.n = 0 then
        { ret := false
          quality := { warnings := ["No radio measurement data available"] }
          simulation_duration := 0
          validated := false }
      else if s.n < 50 then
        { ret := true
          quality :=
            { bandsQuality s with
              overall_confidence := "Very Low"
              warnings := (bandsQuality s).warnings ++ ["Confidence Very Low"] }
          simulation_duration := simDuration s
          validated := false }
      else if s.n < 500 then
        { ret := true
          quality :=
            { bandsQuality s with
              overall_confidence := "Low"
              warnings := (bandsQuality s).warnings ++ ["Confidence Low"] }
          simulation_duration := simDuration s
          validated := false }
      else
        { ret := true
          quality :=
            { bandsQuality s with
              overall_confidence := overallFromScore (qualityScore (bandsQuality s)) }
          simulation_duration := simDuration s
          validated := true }

/-- A candidate radio file as the selection loop of
`establish_ground_truth` sees it: its column names and the statistics of
its contents.  A candidate that does not exist, or whose `pd.read_csv`
raises, is `none`. -/
structure LoadedCsv where
  columns : List String
  stats : RadioStats
  deriving Repr, DecidableEq

/-- The selection loop of `establish_ground_truth` (lines 216-224): the
candidates are tried in the fixed `RADIO_FILES` order and the first one
that exists and loads is taken (`break`); nothing about the candidate's
columns is examined. -/
def select_radio : List (String × Option LoadedCsv) → Option (String × LoadedCsv)
  | [] => none
  | (name, some c) :: _ => some (name, c)
  | (_, none) :: rest => select_radio rest

/-- The fields of `GroundTruthData` that `main` consults after
`establish_ground_truth` returns. -/
structure GroundTruth where
  data_source_name : String
  radio : Option LoadedCsv
  validated : Bool
  quality : SimulationQuality
  deriving Repr, DecidableEq

/-- `establish_ground_truth` (lines 207-321) restricted to selection and
validation: when no candidate loads, the function prints a failure notice
and returns early (line 229) with `radio_data = None` and `validated`
still `False` — `validate` is never called; otherwise the chosen source
is recorded and `validate` runs on it (line 299). -/
def establish_ground_truth (candidates : List (String × Option LoadedCsv)) :
    GroundTruth :=
  match select_radio candidates with
  | none =>
      { data_source_name := ""
        radio := none
        validated := false
        quality := {} }
  | some (name, c) =>
      let v := validate (some c.stats)
      { data_source_name := name
        radio := some c
        validated := v.validated
        quality := v.quality }

/-- `main`'s gate (lines 936-939): every analysis and report step runs
only when `ground_truth.validated` is true; otherwise `main` prints
"Cannot proceed with analysis due to data validation failures" and
returns with no metrics computed and no exception raised. -/
def main_runs_analysis (candidates : List (String × Option LoadedCsv)) : Bool :=
  (establish_ground_truth candidates).validated

/-- A candidate list in which only the lowest-priority file,
`radio_measurement_summary.csv`, exists — and it carries only a `Time`
column, no signal-strength and no signal-to-noise column. -/
def summaryOnlyCsv : LoadedCsv :=
  { columns := ["Time"]
    stats := { n := 5, timeMinMax := some (0, 400), gatewayCount := none,
               fadingStd := none, sfPowerRange := none } }

/-- The candidate list for the selection counterexample, in
`RADIO_FILES` order. -/
def summaryOnlyCandidates : List (String × Option LoadedCsv) :=
  [("rssi_snr_measurements.csv", none),
   ("radio_measurements.csv", none),
   ("radio_measurement_summary.csv", some summaryOnlyCsv)]

/-- A non-empty 100-row dataset whose span, gateway count, fading standard
deviation and parameter ranges are all exactly on target. -/
def stats100 : RadioStats :=
  { n := 100, timeMinMax := some (0, 604800), gatewayCount := some 8,
    fadingStd := some 8, sfPowerRange := some (5, 12) }

/-- A 400-row dataset identical to `stats100` except for the row count:
every check other than completeness is in its best state. -/
def stats400 : RadioStats :=
  { n := 400, timeMinMax := some (0, 604800), gatewayCount := some 8,
    fadingStd := some 8, sfPowerRange := some (5, 12) }

/-- A 5000-row variant: past both early-return thresholds. -/
def stats5000 : RadioStats :=
  { n := 5000, timeMinMax := some (0, 604800), gatewayCount := some 8,
    fadingStd := some 8, sfPowerRange := some (5, 12) }

/-- The completeness bands in their documented order
"Very Limited" < "Limited" < "Adequate" < "Excellent". -/
def completenessRank : String → ℕ
  | "Very Limited" => 0
  | "Limited" => 1
  | "Adequate" => 2
  | "Excellent" => 3
  | _ => 4

end Scratch

/-! ## Theorems -/

/-- Claim C10: for every snapshot built by `parse_transmission_stats`, the
derived fields satisfy `successful_packets + failed_attempts =
total_attempts`; when `efficiency > 0`, `successful_packets` is
`int(total_attempts / efficiency)` and `failed_attempts` the remainder;
when `efficiency ≤ 0`, `successful_packets` is `0` and `failed_attempts`
equals `total_attempts`. -/
theorem c10_snapshot_partition (time : ℚ) (nb_trans : ℤ) (efficiency : ℚ)
    (total_attempts adjustments : ℤ) :
    ((Multi.mkSnapshot time nb_trans efficiency total_attempts
        adjustments).successful_packets +
      (Multi.mkSnapshot time nb_trans efficiency total_attempts
        adjustments).failed_attempts =
      total_attempts) ∧
    (0 < efficiency →
      (Multi.mkSnapshot time nb_trans efficiency total_attempts
          adjustments).successful_packets =
        Multi.pyint ((total_attempts : ℚ) / efficiency) ∧
      (Multi.mkSnapshot time nb_trans efficiency total_attempts
          adjustments).failed_attempts =
        total_attempts - Multi.pyint ((total_attempts : ℚ) / efficiency)) ∧
    (efficiency ≤ 0 →
      (Multi.mkSnapshot time nb_trans efficiency total_attempts
          adjustments).successful_packets = 0 ∧
      (Multi.mkSnapshot time nb_trans efficiency total_attempts
          adjustments).failed_attempts = total_attempts) := by
  by_cases h : 0 < efficiency
  · refine ⟨?_, fun _ => ⟨?_, ?_⟩, fun h' => absurd h (not_lt.mpr h')⟩ <;>
      simp [Multi.mkSnapshot, h]
  · refine ⟨?_, fun h' => absurd h' h, fun _ => ⟨?_, ?_⟩⟩ <;>
      simp [Multi.mkSnapshot, h]

/-- Claim C5: the network-level rates of `calculate_error_rates` /
`analyze_results`: with `sent > 0` the pdr is `received / sent * 100`,
`pdr + per = 100` exactly, and `pdr = 0` when `received = 0`; with
`sent = 0` the pdr is `0`. -/
theorem c5_network_rates (sent received : ℚ) :
    (0 < sent →
      Multi.networkPdr sent received = received / sent * 100 ∧
      Multi.networkPdr sent received + Multi.networkPer sent received = 100 ∧
      (received = 0 → Multi.networkPdr sent received = 0)) ∧
    (sent = 0 → Multi.networkPdr sent received = 0) := by
  unfold Multi.networkPer Multi.networkPdr
  constructor
  · intro h
    refine ⟨?_, ?_, fun h0 => ?_⟩
    · rw [if_pos h]
    · rw [if_pos h]; ring
    · rw [if_pos h, h0]; ring
  · intro h
    rw [if_neg (by rw [h]; exact lt_irrefl 0)]

/-- Claim C2: contrary to the never-throw convention,
`calculate_error_rates` applied to an empty global-performance frame does
not complete: the temporal loop reads `global_df['time']` without an
emptiness guard, and the empty frame (produced whenever
`globalPerformance.txt` is missing or empty) has no columns, so the call
raises `KeyError` instead of returning an analysis record. -/
theorem c2_empty_global_raises :
    Multi.calculate_error_rates [] [] [] = Except.error "KeyError: time" := rfl

/-- Claim C6: for every gateway tally with non-negative counters,
`total_processed` is their sum, each rate is its counter over
`total_processed` times 100 (all three `0` when `total_processed = 0`),
and the three rates sum to at most 100, with equality exactly when
`no_receivers = 0` and `total_processed > 0`. -/
theorem c6_gateway_rates (received interfered under_sensitivity no_receivers : ℤ)
    (hr : 0 ≤ received) (hi : 0 ≤ interfered) (hu : 0 ≤ under_sensitivity)
    (hn : 0 ≤ no_receivers) :
    ∀ s : Multi.GatewayStats,
    s = Multi.gatewayStats received interfered under_sensitivity no_receivers →
    s.total_processed = received + interfered + under_sensitivity + no_receivers ∧
    (s.total_processed = 0 →
      s.success_rate = 0 ∧ s.interference_rate = 0 ∧ s.sensitivity_error_rate = 0) ∧
    (0 < s.total_processed →
      s.success_rate = (received : ℚ) / (s.total_processed : ℚ) * 100 ∧
      s.interference_rate = (interfered : ℚ) / (s.total_processed : ℚ) * 100 ∧
      s.sensitivity_error_rate =
        (under_sensitivity : ℚ) / (s.total_processed : ℚ) * 100) ∧
    s.success_rate + s.interference_rate + s.sensitivity_error_rate ≤ 100 ∧
    (s.success_rate + s.interference_rate + s.sensitivity_error_rate = 100 ↔
      no_receivers = 0 ∧ 0 < s.total_processed) := by
  rintro s rfl
  set s := Multi.gatewayStats received interfered under_sensitivity no_receivers with hs
  set t : ℤ := received + (interfered + under_sensitivity + no_receivers) with ht
  have hproj : s.total_processed = t := rfl
  have hsum : s.total_processed = received + interfered + under_sensitivity + no_receivers := by
    rw [hproj, ht]; ring
  rcases eq_or_lt_of_le (show (0:ℤ) ≤ t by omega) with h0 | hpos
  · -- total_processed = 0: every rate is the else-branch 0
    have hiff : ¬ (0 < t) := by omega
    have hrz : s.success_rate = 0 := by
      show (if 0 < t then (received : ℚ) / (t : ℚ) * 100 else 0) = 0
      rw [if_neg hiff]
    have hiz : s.interference_rate = 0 := by
      show (if 0 < t then (interfered : ℚ) / (t : ℚ) * 100 else 0) = 0
      rw [if_neg hiff]
    have huz : s.sensitivity_error_rate = 0 := by
      show (if 0 < t then (under_sensitivity : ℚ) / (t : ℚ) * 100 else 0) = 0
      rw [if_neg hiff]
    refine ⟨hsum, fun _ => ⟨hrz, hiz, huz⟩, fun hp => absurd hp (by rw [hproj]; omega), ?_, ?_⟩
    · rw [hrz, hiz, huz]; norm_num
    · rw [hrz, hiz, huz, hproj]
      constructor
      · intro habs; norm_num at habs
      · rintro ⟨-, habs⟩; omega
  · -- total_processed > 0
    have htQ : (0:ℚ) < (t : ℚ) := by exact_mod_cast hpos
    have hne : ((t : ℚ)) ≠ 0 := ne_of_gt htQ
    have hrq : s.success_rate = (received : ℚ) / (t : ℚ) * 100 := by
      show (if 0 < t then (received : ℚ) / (t : ℚ) * 100 else 0) = _
      rw [if_pos hpos]
    have hiq : s.interference_rate = (interfered : ℚ) / (t : ℚ) * 100 := by
      show (if 0 < t then (interfered : ℚ) / (t : ℚ) * 100 else 0) = _
      rw [if_pos hpos]
    have huq : s.sensitivity_error_rate = (under_sensitivity : ℚ) / (t : ℚ) * 100 := by
      show (if 0 < t then (under_sensitivity : ℚ) / (t : ℚ) * 100 else 0) = _
      rw [if_pos hpos]
    have hcast : (received : ℚ) + (interfered : ℚ) + (under_sensitivity : ℚ)
        + (no_receivers : ℚ) = (t : ℚ) := by
      rw [ht]; push_cast; ring
    have hnQ : (0:ℚ) ≤ (no_receivers : ℚ) := by exact_mod_cast hn
    have hsumrate : s.success_rate + s.interference_rate + s.sensitivity_error_rate
        = ((received : ℚ) + (interfered : ℚ) + (under_sensitivity : ℚ)) / (t : ℚ) * 100 := by
      rw [hrq, hiq, huq]; ring
    refine ⟨hsum, fun hz => absurd hz (by rw [hproj]; omega),
      fun _ => ⟨by rw [hrq, hproj], by rw [hiq, hproj], by rw [huq, hproj]⟩, ?_, ?_⟩
    · rw [hsumrate, div_mul_eq_mul_div, div_le_iff₀ htQ]
      nlinarith [hcast, hnQ]
    · rw [hsumrate, hproj]
      constructor
      · intro heq
        refine ⟨?_, hpos⟩
        rw [div_mul_eq_mul_div, div_eq_iff hne] at heq
        have : (no_receivers : ℚ) = 0 := by nlinarith [hcast]
        exact_mod_cast this
      · rintro ⟨hz, -⟩
        have hzQ : (no_receivers : ℚ) = 0 := by exact_mod_cast hz
        rw [div_mul_eq_mul_div, div_eq_iff hne]
        nlinarith [hcast]

/-- Witness for C6 at the documentation's own scenario
`received = 80, interfered = 10, under_sensitivity = 5, no_receivers = 5`:
`total_processed = 100`, `success_rate = 80`, the rates sum to at most
100, and they do not sum to exactly 100 because `no_receivers ≠ 0`. -/
theorem c6_gateway_rates_witness :
    (Multi.gatewayStats 80 10 5 5).total_processed = 100 ∧
    (Multi.gatewayStats 80 10 5 5).success_rate = 80 ∧
    (Multi.gatewayStats 80 10 5 5).success_rate +
        (Multi.gatewayStats 80 10 5 5).interference_rate +
        (Multi.gatewayStats 80 10 5 5).sensitivity_error_rate ≤ 100 := by
  have h := c6_gateway_rates 80 10 5 5 (by norm_num) (by norm_num) (by norm_num) (by norm_num)
    (Multi.gatewayStats 80 10 5 5) rfl
  refine ⟨by decide, ?_, h.2.2.2.1⟩
  have h80 := (h.2.2.1 (by decide)).1
  have h100 : (Multi.gatewayStats 80 10 5 5).total_processed = 100 := by decide
  rw [h80, h100]
  norm_num

/-- The starting value bounds a left fold by `max` from below. -/
theorem le_foldl_max (l : List ℚ) (a : ℚ) : a ≤ l.foldl max a := by
  induction l generalizing a with
  | nil => exact le_refl a
  | cons x xs ih => exact le_trans (le_max_left a x) (ih (max a x))

/-- The starting value bounds a left fold by `min` from above. -/
theorem foldl_min_le (l : List ℚ) (a : ℚ) : l.foldl min a ≤ a := by
  induction l generalizing a with
  | nil => exact le_refl a
  | cons x xs ih => exact le_trans (ih (min a x)) (min_le_left a x)

/-- The observed time span `max - min` of any radio frame is non-negative. -/
theorem time_span_nonneg (rows : List TempAnalyzer.RadioRow) :
    0 ≤ TempAnalyzer.time_span rows := by
  unfold TempAnalyzer.time_span TempAnalyzer.colMax TempAnalyzer.colMin
  cases h : rows.map (·.Time) with
  | nil => norm_num
  | cons t ts =>
    have h1 := le_foldl_max ts t
    have h2 := foldl_min_le ts t
    dsimp only
    linarith

/-- Claim C4 counterexample: the generation count computed by
`analyze_fec_packet_flow` is `estimated_unique_packets // gen_size`, not
`floor(T / (g * interval))`.  On a frame with 4 measurements from one
gateway spread over a 3600-second span, the code reports `4 // 8 = 0`
complete generations for size 8, while
`⌊3600 / (8 * 144)⌋ = 3`. -/
theorem c4_generation_feasibility_cex :
    8 ∈ TempAnalyzer.EXPECTED_GENERATION_SIZES ∧
    TempAnalyzer.time_span TempAnalyzer.rowsSparse = 3600 ∧
    (TempAnalyzer.possible_complete_generations TempAnalyzer.rowsSparse 8 : ℤ) ≠
      ⌊TempAnalyzer.time_span TempAnalyzer.rowsSparse /
        ((8 : ℚ) * (TempAnalyzer.PACKET_INTERVAL : ℚ))⌋ := by
  have hspan : TempAnalyzer.time_span TempAnalyzer.rowsSparse = 3600 := by
    norm_num [TempAnalyzer.time_span, TempAnalyzer.rowsSparse, TempAnalyzer.colMax,
      TempAnalyzer.colMin, List.foldl, max_def, min_def]
  have hposs : TempAnalyzer.possible_complete_generations TempAnalyzer.rowsSparse 8 = 0 := by
    decide
  refine ⟨by decide, hspan, ?_⟩
  rw [hspan, hposs]
  rw [show ((8 : ℚ) * (TempAnalyzer.PACKET_INTERVAL : ℚ)) = 1152 by
    norm_num [TempAnalyzer.PACKET_INTERVAL]]
  rw [show ((3600 : ℚ) / 1152) = ((3600 : ℕ) : ℚ) / ((1152 : ℕ) : ℚ) by norm_num]
  rw [Rat.floor_natCast_div_natCast]
  norm_num

/-- Claim C4 (amended): for every candidate generation size `g`, the
computed count is `estimated_unique_packets // g`; whenever the estimated
packet count equals `⌊T / i⌋` for the observed span `T` and the assumed
interval `i = 144` (one packet per interval), that count equals
`⌊T / (g * i)⌋`, and it is `0` whenever `T < g * i`. -/
theorem c4_generation_feasibility (rows : List TempAnalyzer.RadioRow) (g : ℕ)
    (hg : g ∈ TempAnalyzer.EXPECTED_GENERATION_SIZES) :
    TempAnalyzer.possible_complete_generations rows g =
      TempAnalyzer.estimated_unique_packets rows / g ∧
    ((TempAnalyzer.estimated_unique_packets rows : ℤ) =
        ⌊TempAnalyzer.time_span rows / (TempAnalyzer.PACKET_INTERVAL : ℚ)⌋ →
      (TempAnalyzer.possible_complete_generations rows g : ℤ) =
        ⌊TempAnalyzer.time_span rows / ((g : ℚ) * (TempAnalyzer.PACKET_INTERVAL : ℚ))⌋ ∧
      (TempAnalyzer.time_span rows < (g : ℚ) * (TempAnalyzer.PACKET_INTERVAL : ℚ) →
        TempAnalyzer.possible_complete_generations rows g = 0)) := by
  have hg0 : 0 < g := by fin_cases hg <;> norm_num
  have hgQ : (0:ℚ) < (g : ℚ) := by exact_mod_cast hg0
  refine ⟨rfl, fun h => ?_⟩
  set T := TempAnalyzer.time_span rows with hTdef
  have hT0 : 0 ≤ T := time_span_nonneg rows
  have hI : (TempAnalyzer.PACKET_INTERVAL : ℚ) = 144 := by
    norm_num [TempAnalyzer.PACKET_INTERVAL]
  rw [hI] at h ⊢
  have h144 : (0:ℚ) ≤ T / 144 := by positivity
  have hdiv : (0:ℚ) ≤ T / 144 / (g : ℚ) := by positivity
  have hkey : T / ((g : ℚ) * 144) = T / 144 / (g : ℚ) := by
    rw [div_div, mul_comm]
  have hest : TempAnalyzer.estimated_unique_packets rows = ⌊T / 144⌋₊ := by
    have hc := Int.natCast_floor_eq_floor h144
    exact_mod_cast h.trans hc.symm
  have hmain : (TempAnalyzer.possible_complete_generations rows g : ℤ) =
      ⌊T / ((g : ℚ) * 144)⌋ := by
    rw [hkey, ← Int.natCast_floor_eq_floor hdiv]
    norm_cast
    rw [Nat.floor_div_nat (T / 144) g]
    rw [show TempAnalyzer.possible_complete_generations rows g =
      TempAnalyzer.estimated_unique_packets rows / g from rfl, hest]
  refine ⟨hmain, fun hlt => ?_⟩
  have hfloor0 : ⌊T / ((g : ℚ) * 144)⌋ = 0 := by
    rw [Int.floor_eq_zero_iff]
    constructor
    · exact div_nonneg hT0 (by positivity)
    · rw [div_lt_one (by positivity)]
      simpa using hlt
  have := hmain.trans hfloor0
  exact_mod_cast this

/-- Witness for C4 at a frame with 25 measurements from one gateway over
a 3600-second span (one estimated packet per 144-second interval):
generation size 8 yields `⌊3600 / (8·144)⌋ = 3` complete generations
(feasible), generation size 128 yields `0` (infeasible, since
`3600 < 128·144`). -/
theorem c4_generation_feasibility_witness :
    TempAnalyzer.possible_complete_generations TempAnalyzer.rowsRegular 8 = 3 ∧
    (TempAnalyzer.possible_complete_generations TempAnalyzer.rowsRegular 8 : ℤ) =
      ⌊TempAnalyzer.time_span TempAnalyzer.rowsRegular /
        ((8 : ℚ) * (TempAnalyzer.PACKET_INTERVAL : ℚ))⌋ ∧
    TempAnalyzer.possible_complete_generations TempAnalyzer.rowsRegular 128 = 0 ∧
    (TempAnalyzer.possible_complete_generations TempAnalyzer.rowsRegular 128 : ℤ) =
      ⌊TempAnalyzer.time_span TempAnalyzer.rowsRegular /
        ((128 : ℚ) * (TempAnalyzer.PACKET_INTERVAL : ℚ))⌋ := by
  have hspan : TempAnalyzer.time_span TempAnalyzer.rowsRegular = 3600 := by
    norm_num [TempAnalyzer.time_span, TempAnalyzer.rowsRegular, TempAnalyzer.colMax,
      TempAnalyzer.colMin, List.foldl, max_def, min_def]
  have hest : TempAnalyzer.estimated_unique_packets TempAnalyzer.rowsRegular = 25 := by
    decide
  have hhyp : (TempAnalyzer.estimated_unique_packets TempAnalyzer.rowsRegular : ℤ) =
      ⌊TempAnalyzer.time_span TempAnalyzer.rowsRegular /
        (TempAnalyzer.PACKET_INTERVAL : ℚ)⌋ := by
    rw [hest, hspan]
    rw [show ((TempAnalyzer.PACKET_INTERVAL : ℕ) : ℚ) = 144 by
      norm_num [TempAnalyzer.PACKET_INTERVAL]]
    rw [show ((3600 : ℚ) / 144) = ((3600 : ℕ) : ℚ) / ((144 : ℕ) : ℚ) by norm_num]
    rw [Rat.floor_natCast_div_natCast]
    norm_num
  refine ⟨by decide,
    ((c4_generation_feasibility TempAnalyzer.rowsRegular 8 (by decide)).2 hhyp).1,
    by decide,
    ((c4_generation_feasibility TempAnalyzer.rowsRegular 128 (by decide)).2 hhyp).1⟩

/-- Claim C7: the size reported as optimal by `analyze_fec_packet_flow` is
the largest candidate size whose computed number of complete generations
is at least one; when no candidate yields a complete generation the
result is explicitly `None` (no fallback). -/
theorem c7_optimal_generation_size (rows : List TempAnalyzer.RadioRow) :
    (TempAnalyzer.optimal_generation_size rows = none →
      ∀ g ∈ TempAnalyzer.EXPECTED_GENERATION_SIZES,
        TempAnalyzer.possible_complete_generations rows g = 0) ∧
    (∀ g, TempAnalyzer.optimal_generation_size rows = some g →
      g ∈ TempAnalyzer.EXPECTED_GENERATION_SIZES ∧
      1 ≤ TempAnalyzer.possible_complete_generations rows g ∧
      ∀ g' ∈ TempAnalyzer.EXPECTED_GENERATION_SIZES,
        1 ≤ TempAnalyzer.possible_complete_generations rows g' → g' ≤ g) := by
  set est := TempAnalyzer.estimated_unique_packets rows with hestdef
  have hposs : ∀ k : ℕ, TempAnalyzer.possible_complete_generations rows k = est / k :=
    fun _ => rfl
  have hopt : TempAnalyzer.optimal_generation_size rows =
      (if (TempAnalyzer.EXPECTED_GENERATION_SIZES.filter fun g => 0 < est / g).isEmpty
        then none
        else some ((TempAnalyzer.EXPECTED_GENERATION_SIZES.filter fun g =>
          0 < est / g).foldl max 0)) := rfl
  have hdiv : ∀ g : ℕ, g ≠ 0 → (0 < est / g ↔ g ≤ est) := fun g hg => Nat.div_pos_iff hg
  have i8 := hdiv 8 (by norm_num)
  have i16 := hdiv 16 (by norm_num)
  have i32 := hdiv 32 (by norm_num)
  have i64 := hdiv 64 (by norm_num)
  have i128 := hdiv 128 (by norm_num)
  rcases (by omega :
      est < 8 ∨ (8 ≤ est ∧ est < 16) ∨ (16 ≤ est ∧ est < 32) ∨
      (32 ≤ est ∧ est < 64) ∨ (64 ≤ est ∧ est < 128) ∨ 128 ≤ est) with
    h | ⟨h, h'⟩ | ⟨h, h'⟩ | ⟨h, h'⟩ | ⟨h, h'⟩ | h
  · -- no candidate feasible
    have hf : (TempAnalyzer.EXPECTED_GENERATION_SIZES.filter fun g => 0 < est / g) = [] := by
      simp only [TempAnalyzer.EXPECTED_GENERATION_SIZES, List.filter_cons, List.filter_nil,
        decide_eq_true_eq, i8, i16, i32, i64, i128]
      simp only [if_neg (by omega : ¬ 8 ≤ est), if_neg (by omega : ¬ 16 ≤ est),
        if_neg (by omega : ¬ 32 ≤ est), if_neg (by omega : ¬ 64 ≤ est),
        if_neg (by omega : ¬ 128 ≤ est)]
    rw [hopt, hf]
    refine ⟨fun _ g hg => ?_, fun g hg => by simp at hg⟩
    fin_cases hg <;> rw [hposs] <;> rw [Nat.div_eq_zero_iff (by norm_num)] <;> omega
  · -- only size 8 feasible
    have hf : (TempAnalyzer.EXPECTED_GENERATION_SIZES.filter fun g => 0 < est / g) = [8] := by
      simp only [TempAnalyzer.EXPECTED_GENERATION_SIZES, List.filter_cons, List.filter_nil,
        decide_eq_true_eq, i8, i16, i32, i64, i128]
      simp only [if_pos h, if_neg (by omega : ¬ 16 ≤ est),
        if_neg (by omega : ¬ 32 ≤ est), if_neg (by omega : ¬ 64 ≤ est),
        if_neg (by omega : ¬ 128 ≤ est)]
    rw [hopt, hf]
    refine ⟨fun habs => by simp at habs, fun g hg => ?_⟩
    have hg8 : g = 8 := by simpa using hg.symm
    subst hg8
    refine ⟨by decide, by rw [hposs]; omega, fun g' hmem hge => ?_⟩
    rw [hposs] at hge
    fin_cases hmem
    · norm_num
    · exact absurd (i16.mp (by omega)) (by omega)
    · exact absurd (i32.mp (by omega)) (by omega)
    · exact absurd (i64.mp (by omega)) (by omega)
    · exact absurd (i128.mp (by omega)) (by omega)
  · -- sizes 8 and 16 feasible
    have hf : (TempAnalyzer.EXPECTED_GENERATION_SIZES.filter fun g => 0 < est / g)
        = [8, 16] := by
      simp only [TempAnalyzer.EXPECTED_GENERATION_SIZES, List.filter_cons, List.filter_nil,
        decide_eq_true_eq, i8, i16, i32, i64, i128]
      simp only [if_pos (by omega : 8 ≤ est), if_pos h,
        if_neg (by omega : ¬ 32 ≤ est), if_neg (by omega : ¬ 64 ≤ est),
        if_neg (by omega : ¬ 128 ≤ est)]
    rw [hopt, hf]
    refine ⟨fun habs => by simp at habs, fun g hg => ?_⟩
    have hg16 : g = 16 := by
      have : some (([8, 16] : List ℕ).foldl max 0) = some g := hg
      simpa [List.foldl] using this.symm
    subst hg16
    refine ⟨by decide, by rw [hposs]; omega, fun g' hmem hge => ?_⟩
    rw [hposs] at hge
    fin_cases hmem
    · norm_num
    · norm_num
    · exact absurd (i32.mp (by omega)) (by omega)
    · exact absurd (i64.mp (by omega)) (by omega)
    · exact absurd (i128.mp (by omega)) (by omega)
  · -- sizes 8, 16, 32 feasible
    have hf : (TempAnalyzer.EXPECTED_GENERATION_SIZES.filter fun g => 0 < est / g)
        = [8, 16, 32] := by
      simp only [TempAnalyzer.EXPECTED_GENERATION_SIZES, List.filter_cons, List.filter_nil,
        decide_eq_true_eq, i8, i16, i32, i64, i128]
      simp only [if_pos (by omega : 8 ≤ est), if_pos (by omega : 16 ≤ est), if_pos h,
        if_neg (by omega : ¬ 64 ≤ est), if_neg (by omega : ¬ 128 ≤ est)]
    rw [hopt, hf]
    refine ⟨fun habs => by simp at habs, fun g hg => ?_⟩
    have hg32 : g = 32 := by
      have : some (([8, 16, 32] : List ℕ).foldl max 0) = some g := hg
      simpa [List.foldl] using this.symm
    subst hg32
    refine ⟨by decide, by rw [hposs]; omega, fun g' hmem hge => ?_⟩
    rw [hposs] at hge
    fin_cases hmem
    · norm_num
    · norm_num
    · norm_num
    · exact absurd (i64.mp (by omega)) (by omega)
    · exact absurd (i128.mp (by omega)) (by omega)
  · -- sizes 8..64 feasible
    have hf : (TempAnalyzer.EXPECTED_GENERATION_SIZES.filter fun g => 0 < est / g)
        = [8, 16, 32, 64] := by
      simp only [TempAnalyzer.EXPECTED_GENERATION_SIZES, List.filter_cons, List.filter_nil,
        decide_eq_true_eq, i8, i16, i32, i64, i128]
      simp only [if_pos (by omega : 8 ≤ est), if_pos (by omega : 16 ≤ est),
        if_pos (by omega : 32 ≤ est), if_pos h, if_neg (by omega : ¬ 128 ≤ est)]
    rw [hopt, hf]
    refine ⟨fun habs => by simp at habs, fun g hg => ?_⟩
    have hg64 : g = 64 := by
      have : some (([8, 16, 32, 64] : List ℕ).foldl max 0) = some g := hg
      simpa [List.foldl] using this.symm
    subst hg64
    refine ⟨by decide, by rw [hposs]; omega, fun g' hmem hge => ?_⟩
    rw [hposs] at hge
    fin_cases hmem
    · norm_num
    · norm_num
    · norm_num
    · norm_num
    · exact absurd (i128.mp (by omega)) (by omega)
  · -- every size feasible
    have hf : (TempAnalyzer.EXPECTED_GENERATION_SIZES.filter fun g => 0 < est / g)
        = [8, 16, 32, 64, 128] := by
      simp only [TempAnalyzer.EXPECTED_GENERATION_SIZES, List.filter_cons, List.filter_nil,
        decide_eq_true_eq, i8, i16, i32, i64, i128]
      simp only [if_pos (by omega : 8 ≤ est), if_pos (by omega : 16 ≤ est),
        if_pos (by omega : 32 ≤ est), if_pos (by omega : 64 ≤ est), if_pos h]
    rw [hopt, hf]
    refine ⟨fun habs => by simp at habs, fun g hg => ?_⟩
    have hg128 : g = 128 := by
      have : some (([8, 16, 32, 64, 128] : List ℕ).foldl max 0) = some g := hg
      simpa [List.foldl] using this.symm
    subst hg128
    refine ⟨by decide, by rw [hposs]; omega, fun g' hmem hge => ?_⟩
    fin_cases hmem <;> norm_num

/-- Claim C1 counterexample: the selection loop of
`establish_ground_truth` does not gate on columns.  With only the
lowest-priority candidate `radio_measurement_summary.csv` present — a
file carrying just a `Time` column, hence neither a signal-strength nor a
signal-to-noise column — the selector still chooses it as authoritative,
so "a candidate is chosen only if it contains the required
signal-strength and signal-to-noise columns" is false. -/
theorem c1_selection_gating_cex :
    Scratch.select_radio Scratch.summaryOnlyCandidates =
      some ("radio_measurement_summary.csv", Scratch.summaryOnlyCsv) ∧
    "SNR_dB" ∉ Scratch.summaryOnlyCsv.columns ∧
    "RSSI_dBm" ∉ Scratch.summaryOnlyCsv.columns := by
  refine ⟨rfl, by decide, by decide⟩

/-- Claim C1 (amended): the selector deterministically chooses the first
candidate in the fixed priority order that exists and loads, with no
column check; selection fails exactly when no candidate loads, in which
case `establish_ground_truth` returns early with no source, the record
stays not-validated, and `main` skips all metric computation (returning
normally rather than raising). -/
theorem c1_selector_first_loadable
    (candidates : List (String × Option Scratch.LoadedCsv)) :
    Scratch.select_radio candidates =
      (candidates.filterMap fun p => p.2.map fun c => (p.1, c)).head? ∧
    (Scratch.select_radio candidates = none →
      Scratch.establish_ground_truth candidates =
        { data_source_name := "", radio := none, validated := false, quality := {} } ∧
      Scratch.main_runs_analysis candidates = false) := by
  constructor
  · induction candidates with
    | nil => rfl
    | cons p rest ih =>
      rcases p with ⟨name, c⟩
      cases c with
      | none => simpa [Scratch.select_radio, List.filterMap_cons] using ih
      | some csv => simp [Scratch.select_radio, List.filterMap_cons]
  · intro h
    unfold Scratch.main_runs_analysis Scratch.establish_ground_truth
    rw [h]
    exact ⟨rfl, rfl⟩

/-- Claim C3: for a loaded non-empty dataset — here 100 rows, on-target
span, gateways, fading and parameter activity — `validate` returns
`True` with a quality verdict ("Low" confidence) and warnings attached,
yet `self.validated` is never set on this path, so `main`'s gate reports
a validation failure and skips every analysis step: a merely-poor verdict
halts the pipeline, contradicting the claim that analysis is skipped only
when the source is entirely absent. -/
theorem c3_nonempty_dataset_halts :
    Scratch.stats100.n = 100 ∧
    (Scratch.validate (some Scratch.stats100)).ret = true ∧
    (Scratch.validate (some Scratch.stats100)).quality.overall_confidence = "Low" ∧
    (Scratch.validate (some Scratch.stats100)).quality.warnings ≠ [] ∧
    (Scratch.validate (some Scratch.stats100)).validated = false ∧
    Scratch.main_runs_analysis
      [("rssi_snr_measurements.csv",
        some { columns := ["Time", "SNR_dB"], stats := Scratch.stats100 })] = false := by
  refine ⟨rfl, rfl, rfl, ?_, rfl, rfl⟩
  show (Scratch.bandsQuality Scratch.stats100).warnings ++ ["Confidence Low"] ≠ []
  simp

/-- The completeness thresholds evaluate to `302.4`, `3024` and `15120`
measurements, so the band is a step function of the record count. -/
theorem dataCompletenessBand_characterization (n : ℕ) :
    Scratch.dataCompletenessBand n =
      if n ≤ 302 then "Very Limited"
      else if n ≤ 3023 then "Limited"
      else if 15121 ≤ n then "Excellent"
      else "Adequate" := by
  have hT : (Scratch.EXPECTED_TOTAL_PACKETS : ℚ) = 4200 := by
    norm_num [Scratch.EXPECTED_TOTAL_PACKETS, Scratch.EXPECTED_SIMULATION_DAYS,
      Scratch.EXPECTED_PACKET_INTERVAL]
  have hG : (Scratch.EXPECTED_GATEWAYS : ℚ) = 8 := by
    norm_num [Scratch.EXPECTED_GATEWAYS]
  have e1 : ((n : ℚ) < max 100 ((4200 : ℚ) * 8 * (9 / 10) * (1 / 100))) ↔ n ≤ 302 := by
    rw [show max (100 : ℚ) ((4200 : ℚ) * 8 * (9 / 10) * (1 / 100)) = 1512 / 5 by
      rw [max_eq_right (by norm_num)]; norm_num]
    rw [lt_div_iff₀ (by norm_num : (0 : ℚ) < 5)]
    constructor
    · intro hh
      have : n * 5 < 1512 := by exact_mod_cast hh
      omega
    · intro hh
      have : n * 5 < 1512 := by omega
      exact_mod_cast this
  have e2 : ((n : ℚ) < (4200 : ℚ) * 8 * (9 / 10) * (1 / 10)) ↔ n ≤ 3023 := by
    rw [show (4200 : ℚ) * 8 * (9 / 10) * (1 / 10) = 3024 by norm_num]
    constructor
    · intro hh
      have : n < 3024 := by exact_mod_cast hh
      omega
    · intro hh
      have : n < 3024 := by omega
      exact_mod_cast this
  have e3 : ((4200 : ℚ) * 8 * (9 / 10) * (1 / 2) < (n : ℚ)) ↔ 15121 ≤ n := by
    rw [show (4200 : ℚ) * 8 * (9 / 10) * (1 / 2) = 15120 by norm_num]
    constructor
    · intro hh
      have : 15120 < n := by exact_mod_cast hh
      omega
    · intro hh
      have : (15120 : ℕ) < n := by omega
      exact_mod_cast this
  unfold Scratch.dataCompletenessBand
  rw [hT, hG]
  simp only [e1, e2, e3]

/-- Claim C9: the completeness band is monotonic in the record count —
with everything else equal, a strictly larger measurement count never
yields a band that is worse in the order
"Very Limited" < "Limited" < "Adequate" < "Excellent". -/
theorem c9_completeness_monotone (m k : ℕ) (h : m < k) :
    Scratch.completenessRank (Scratch.dataCompletenessBand m) ≤
      Scratch.completenessRank (Scratch.dataCompletenessBand k) := by
  rw [dataCompletenessBand_characterization, dataCompletenessBand_characterization]
  split_ifs <;> first | decide | omega

/-- Witness for C9 at record counts 100 < 5000: the band moves from
"Very Limited" (rank 0) up to "Adequate" (rank 2), never down. -/
theorem c9_completeness_monotone_witness :
    100 < 5000 ∧
    Scratch.completenessRank (Scratch.dataCompletenessBand 100) ≤
      Scratch.completenessRank (Scratch.dataCompletenessBand 5000) :=
  ⟨by norm_num, c9_completeness_monotone 100 5000 (by norm_num)⟩

/-- Claim C8 counterexample: the "Low" short-circuit fires for every
dataset below 500 records, not merely below a floor of tens of records.
`stats400` has 400 records (well above any floor of tens) and four of the
five band checks in their best state — an 80% score, which the claimed
rule maps to "High" — yet the validator reports overall confidence
"Low". -/
theorem c8_confidence_cex :
    Scratch.stats400.n = 400 ∧
    Scratch.qualityScore (Scratch.validate (some Scratch.stats400)).quality = 4 ∧
    Scratch.overallFromScore 4 = "High" ∧
    (Scratch.validate (some Scratch.stats400)).quality.overall_confidence = "Low" := by
  have hdc : (Scratch.validate (some Scratch.stats400)).quality.data_completeness
      = "Limited" := by
    have h0 : (Scratch.validate (some Scratch.stats400)).quality.data_completeness
        = Scratch.dataCompletenessBand 400 := rfl
    rw [h0, dataCompletenessBand_characterization]
    norm_num
  have hda : (Scratch.validate (some Scratch.stats400)).quality.duration_accuracy
      = "Accurate" := by
    have h0 : (Scratch.validate (some Scratch.stats400)).quality.duration_accuracy
        = Scratch.durationBand
            (((604800 : ℚ) - 0) / ((Scratch.EXPECTED_SIMULATION_DAYS : ℚ) * 24 * 3600)) := rfl
    rw [h0]
    norm_num [Scratch.durationBand, Scratch.EXPECTED_SIMULATION_DAYS]
  have hgd : (Scratch.validate (some Scratch.stats400)).quality.gateway_diversity
      = "Complete" := by
    have h0 : (Scratch.validate (some Scratch.stats400)).quality.gateway_diversity
        = Scratch.gatewayDiversityBand 8 := rfl
    rw [h0]
    norm_num [Scratch.gatewayDiversityBand, Scratch.EXPECTED_GATEWAYS]
  have hcm : (Scratch.validate (some Scratch.stats400)).quality.channel_model_accuracy
      = "Excellent" := by
    have h0 : (Scratch.validate (some Scratch.stats400)).quality.channel_model_accuracy
        = Scratch.channelModelBand 8 := rfl
    rw [h0]
    norm_num [Scratch.channelModelBand, Scratch.EXPECTED_FADING_STD]
  have haf : (Scratch.validate (some Scratch.stats400)).quality.adropt_functioning
      = "Active" := by
    have h0 : (Scratch.validate (some Scratch.stats400)).quality.adropt_functioning
        = Scratch.adroptBand 5 12 := rfl
    rw [h0]
    norm_num [Scratch.adroptBand]
  refine ⟨rfl, ?_, by norm_num [Scratch.overallFromScore], rfl⟩
  unfold Scratch.qualityScore
  rw [hdc, hda, hgd, hcm, haf]
  decide

/-- Claim C8 (amended): the confidence short-circuits are two absolute
floors — below 50 records the overall confidence is forced to
"Very Low" and below 500 records to "Low", regardless of the five band
checks; from 500 records on, the confidence is "High" when at least 4 of
the 5 checks (≥ 80%) are in their best-or-second-best state, "Medium"
when exactly 3 (≥ 60%), and "Low" otherwise. -/
theorem c8_confidence_bands (s : Scratch.RadioStats) :
    (0 < s.n → s.n < 50 →
      (Scratch.validate (some s)).quality.overall_confidence = "Very Low") ∧
    (50 ≤ s.n → s.n < 500 →
      (Scratch.validate (some s)).quality.overall_confidence = "Low") ∧
    (500 ≤ s.n →
      (Scratch.validate (some s)).quality.overall_confidence =
        Scratch.overallFromScore (Scratch.qualityScore (Scratch.bandsQuality s))) ∧
    (∀ k : ℕ,
      (4 ≤ k → Scratch.overallFromScore k = "High") ∧
      (k = 3 → Scratch.overallFromScore k = "Medium") ∧
      (k ≤ 2 → Scratch.overallFromScore k = "Low")) := by
  refine ⟨fun h0 h50 => ?_, fun h50 h500 => ?_, fun h500 => ?_,
    fun k => ⟨fun h4 => ?_, fun h3 => ?_, fun h2 => ?_⟩⟩
  · unfold Scratch.validate
    dsimp only
    rw [if_neg (by omega : ¬ s.n = 0), if_pos h50]
  · unfold Scratch.validate
    dsimp only
    rw [if_neg (by omega : ¬ s.n = 0), if_neg (by omega : ¬ s.n < 50), if_pos h500]
  · unfold Scratch.validate
    dsimp only
    rw [if_neg (by omega : ¬ s.n = 0), if_neg (by omega : ¬ s.n < 50),
      if_neg (by omega : ¬ s.n < 500)]
  · have hk : (4 : ℚ) ≤ (k : ℚ) := by exact_mod_cast h4
    unfold Scratch.overallFromScore
    rw [if_pos (by linarith : (4 : ℚ) / 5 ≤ (k : ℚ) / 5)]
  · subst h3
    norm_num [Scratch.overallFromScore]
  · have hk : ((k : ℚ)) ≤ 2 := by exact_mod_cast h2
    unfold Scratch.overallFromScore
    rw [if_neg (not_le.mpr (by linarith : (k : ℚ) / 5 < 4 / 5)),
      if_neg (not_le.mpr (by linarith : (k : ℚ) / 5 < 3 / 5))]
